import Mathlib

/-!
Verification of the identifier-resolution and validator-status model of
`common/eth2/src/types.rs`.

The file embeds the Rust source shallowly:

* `ValidatorStatus.from_validator` is translated line by line from the
  source.  The `Validator` record and its three epoch predicates live in an
  excluded chain-state crate, so the record is modelled from the spec as a
  structure carrying the four epoch fields and the three predicates as
  abstract boolean functions.  Epochs are modelled as `Nat`; the spec states
  that all epoch comparisons are plain total-order integer comparisons with
  no wraparound.
* `BlockId.from_str`, `StateId.from_str` and `ValidatorId.from_str` are
  translated from the source, parameterised over the external hash and
  public-key decoders (which live outside the given slice); the numeric
  `u64` parse is modelled from the spec.
-/

namespace Eth2

/-- Epochs are modelled as natural numbers: the spec says all epoch
comparisons are total-order integer comparisons with no wraparound or
special-casing beyond the caller-supplied sentinel. -/
abbrev Epoch := Nat

/-- Slots are modelled as natural numbers, like epochs. -/
abbrev Slot := Nat

/-- The number of epochs between when a validator is eligible for activation
and when they usually enter the activation queue (source line 13). -/
def EPOCHS_BEFORE_FINALITY : Nat := 3

/-- Modelled from the spec: the external `Validator` record (supplied by the
excluded chain-state library) exposes the four lifecycle epoch fields and
the three epoch-parameterised predicates `is_withdrawable_at`,
`is_exited_at` and `is_active_at`.  The predicates are kept abstract, as
the spec treats them as collaborator-supplied. -/
structure Validator where
  activation_eligibility_epoch : Epoch
  activation_epoch : Epoch
  exit_epoch : Epoch
  withdrawable_epoch : Epoch
  is_withdrawable_at : Epoch → Bool
  is_exited_at : Epoch → Bool
  is_active_at : Epoch → Bool

/-- The nine lifecycle statuses (source lines 193-203). -/
inductive ValidatorStatus where
  | Unknown
  | WaitingForEligibility
  | WaitingForFinality (epoch : Epoch)
  | WaitingInQueue
  | StandbyForActive (epoch : Epoch)
  | Active
  | ActiveAwaitingExit (epoch : Epoch)
  | Exited (epoch : Epoch)
  | Withdrawable
  deriving DecidableEq, Repr

/-- Translation of `ValidatorStatus::from_validator` (source lines 206-241). -/
def ValidatorStatus.from_validator (validator_opt : Option Validator)
    (epoch finalized_epoch far_future_epoch : Epoch) : ValidatorStatus :=
  match validator_opt with
  | some validator =>
    if validator.is_withdrawable_at epoch then
      ValidatorStatus.Withdrawable
    else if validator.is_exited_at epoch then
      ValidatorStatus.Exited validator.withdrawable_epoch
    else if validator.is_active_at epoch then
      if validator.exit_epoch < far_future_epoch then
        ValidatorStatus.ActiveAwaitingExit validator.exit_epoch
      else
        ValidatorStatus.Active
    else
      if validator.activation_epoch < far_future_epoch then
        ValidatorStatus.StandbyForActive validator.activation_epoch
      else if validator.activation_eligibility_epoch < far_future_epoch then
        if finalized_epoch < validator.activation_eligibility_epoch then
          ValidatorStatus.WaitingForFinality
            (validator.activation_eligibility_epoch + EPOCHS_BEFORE_FINALITY)
        else
          ValidatorStatus.WaitingInQueue
      else
        ValidatorStatus.WaitingForEligibility
  | none => ValidatorStatus.Unknown

/-- A concrete record used by the witnesses: all predicates true. -/
def vAllTrue : Validator :=
  ⟨0, 0, 0, 7, fun _ => true, fun _ => true, fun _ => true⟩

/-- A concrete record used by the witnesses: withdrawable false, the other
two predicates true. -/
def vExitedActive : Validator :=
  ⟨0, 0, 4, 9, fun _ => false, fun _ => true, fun _ => true⟩

/-- A concrete record used by the witnesses: all predicates false,
activation unset, eligibility 5, far-future 10. -/
def vWaitingFinality : Validator :=
  ⟨5, 10, 10, 10, fun _ => false, fun _ => false, fun _ => false⟩

/-- A concrete record used by the witnesses: all predicates false, both
activation epochs unset (equal to the far-future sentinel 10). -/
def vWaitingEligibility : Validator :=
  ⟨10, 10, 10, 10, fun _ => false, fun _ => false, fun _ => false⟩

/-- Claim C1: whenever the record satisfies `is_withdrawable_at` at the
current epoch, `from_validator` returns `Withdrawable`, whatever the other
fields, predicates and epoch arguments are: the withdrawable check takes
precedence over the exited and active checks. -/
theorem from_validator_withdrawable (v : Validator)
    (epoch finalized_epoch far_future_epoch : Epoch)
    (h : v.is_withdrawable_at epoch = true) :
    ValidatorStatus.from_validator (some v) epoch finalized_epoch far_future_epoch
      = ValidatorStatus.Withdrawable := by
  simp [ValidatorStatus.from_validator, h]

/-- Witness for C1 at a concrete record. -/
theorem from_validator_withdrawable_witness :
    vAllTrue.is_withdrawable_at 3 = true ∧
      ValidatorStatus.from_validator (some vAllTrue) 3 1 10
        = ValidatorStatus.Withdrawable :=
  ⟨rfl, from_validator_withdrawable vAllTrue 3 1 10 rfl⟩

/-- Claim C2: a record that is not withdrawable but is both exited and
active at the current epoch classifies as `Exited` carrying the record's
`withdrawable_epoch`, and never as `Active` or `ActiveAwaitingExit`: the
exited check takes precedence over the active check. -/
theorem from_validator_exited_precedence (v : Validator)
    (epoch finalized_epoch far_future_epoch : Epoch)
    (hw : v.is_withdrawable_at epoch = false)
    (he : v.is_exited_at epoch = true)
    (_ha : v.is_active_at epoch = true) :
    ValidatorStatus.from_validator (some v) epoch finalized_epoch far_future_epoch
        = ValidatorStatus.Exited v.withdrawable_epoch ∧
      ValidatorStatus.from_validator (some v) epoch finalized_epoch far_future_epoch
        ≠ ValidatorStatus.Active ∧
      ∀ e, ValidatorStatus.from_validator (some v) epoch finalized_epoch far_future_epoch
        ≠ ValidatorStatus.ActiveAwaitingExit e := by
  refine ⟨?_, ?_, ?_⟩ <;> simp [ValidatorStatus.from_validator, hw, he]

/-- Witness for C2 at a concrete record. -/
theorem from_validator_exited_precedence_witness :
    vExitedActive.is_withdrawable_at 5 = false ∧
      vExitedActive.is_exited_at 5 = true ∧
      vExitedActive.is_active_at 5 = true ∧
      ValidatorStatus.from_validator (some vExitedActive) 5 1 10
        = ValidatorStatus.Exited 9 :=
  ⟨rfl, rfl, rfl,
    (from_validator_exited_precedence vExitedActive 5 1 10 rfl rfl rfl).1⟩

/-- Claim C3: a record that is neither withdrawable, exited nor active,
whose `activation_epoch` equals the far-future sentinel, whose
`activation_eligibility_epoch` is strictly below the sentinel, and whose
eligibility epoch is not yet finalized, classifies as
`WaitingForFinality (activation_eligibility_epoch + 3)`, where 3 is the
fixed `EPOCHS_BEFORE_FINALITY` constant. -/
theorem from_validator_waiting_for_finality (v : Validator)
    (epoch finalized_epoch far_future_epoch : Epoch)
    (hw : v.is_withdrawable_at epoch = false)
    (he : v.is_exited_at epoch = false)
    (ha : v.is_active_at epoch = false)
    (hact : v.activation_epoch = far_future_epoch)
    (helig : v.activation_eligibility_epoch < far_future_epoch)
    (hfin : finalized_epoch < v.activation_eligibility_epoch) :
    ValidatorStatus.from_validator (some v) epoch finalized_epoch far_future_epoch
        = ValidatorStatus.WaitingForFinality (v.activation_eligibility_epoch + 3) ∧
      EPOCHS_BEFORE_FINALITY = 3 := by
  refine ⟨?_, rfl⟩
  simp [ValidatorStatus.from_validator, hw, he, ha, hact, helig, hfin,
    EPOCHS_BEFORE_FINALITY]

/-- Witness for C3 at a concrete record. -/
theorem from_validator_waiting_for_finality_witness :
    vWaitingFinality.is_withdrawable_at 2 = false ∧
      vWaitingFinality.is_exited_at 2 = false ∧
      vWaitingFinality.is_active_at 2 = false ∧
      vWaitingFinality.activation_epoch = 10 ∧
      vWaitingFinality.activation_eligibility_epoch < 10 ∧
      (4 : Nat) < vWaitingFinality.activation_eligibility_epoch ∧
      ValidatorStatus.from_validator (some vWaitingFinality) 2 4 10
        = ValidatorStatus.WaitingForFinality 8 :=
  ⟨rfl, rfl, rfl, rfl, by decide, by decide,
    (from_validator_waiting_for_finality vWaitingFinality 2 4 10 rfl rfl rfl rfl
      (by decide) (by decide)).1⟩

/-- Claim C4: a record that is neither withdrawable, exited nor active and
whose activation and activation-eligibility epochs both equal the
far-future sentinel (unset) classifies as `WaitingForEligibility`. -/
theorem from_validator_waiting_for_eligibility (v : Validator)
    (epoch finalized_epoch far_future_epoch : Epoch)
    (hw : v.is_withdrawable_at epoch = false)
    (he : v.is_exited_at epoch = false)
    (ha : v.is_active_at epoch = false)
    (hact : v.activation_epoch = far_future_epoch)
    (helig : v.activation_eligibility_epoch = far_future_epoch) :
    ValidatorStatus.from_validator (some v) epoch finalized_epoch far_future_epoch
      = ValidatorStatus.WaitingForEligibility := by
  simp [ValidatorStatus.from_validator, hw, he, ha, hact, helig]

/-- Witness for C4 at a concrete record. -/
theorem from_validator_waiting_for_eligibility_witness :
    vWaitingEligibility.is_withdrawable_at 2 = false ∧
      vWaitingEligibility.is_exited_at 2 = false ∧
      vWaitingEligibility.is_active_at 2 = false ∧
      vWaitingEligibility.activation_epoch = 10 ∧
      vWaitingEligibility.activation_eligibility_epoch = 10 ∧
      ValidatorStatus.from_validator (some vWaitingEligibility) 2 4 10
        = ValidatorStatus.WaitingForEligibility :=
  ⟨rfl, rfl, rfl, rfl, rfl,
    from_validator_waiting_for_eligibility vWaitingEligibility 2 4 10
      rfl rfl rfl rfl rfl⟩

/-- Claim C5: applied to an absent record, `from_validator` returns
`Unknown` for every choice of the three epoch arguments: absence is a valid
input and the classifier has no failure path. -/
theorem from_validator_none_unknown
    (epoch finalized_epoch far_future_epoch : Epoch) :
    ValidatorStatus.from_validator none epoch finalized_epoch far_future_epoch
      = ValidatorStatus.Unknown := rfl

/-- Modelled from the spec: a 32-byte content hash, supplied by an excluded
crate; carried abstractly as a byte list. -/
structure Hash256 where
  bytes : List Nat
  deriving DecidableEq

/-- Modelled from the spec: a fixed-size public-key byte string, supplied
by an excluded crate; carried abstractly as a byte list. -/
structure PublicKeyBytes where
  bytes : List Nat
  deriving DecidableEq

/-- Translation of the Rust test `s.starts_with("0x")`, on the character
list of the string (the two characters are single-byte ASCII, so byte and
character indexing agree). -/
def startsWith0x (s : String) : Bool :=
  match s.data with
  | '0' :: 'x' :: _ => true
  | _ => false

/-- Translation of the Rust slice `&s[2..]` for a string that starts with
the two single-byte characters of `0x`. -/
def dropTwo (s : String) : String :=
  String.mk (s.data.drop 2)

/-- Hexadecimal-digit test used by the modelled hash decoder. -/
def isHexDigit (c : Char) : Bool :=
  c.isDigit || (('a' ≤ c && c ≤ 'f') || ('A' ≤ c && c ≤ 'F'))

/-- Numeric value of one hexadecimal digit. -/
def hexVal (c : Char) : Nat :=
  if c.isDigit then c.toNat - 48
  else if 'a' ≤ c && c ≤ 'f' then c.toNat - 87
  else c.toNat - 55

/-- Consecutive pairs of hexadecimal digits read as bytes. -/
def hexBytes : List Char → List Nat
  | a :: b :: rest => (16 * hexVal a + hexVal b) :: hexBytes rest
  | _ => []

/-- Modelled from the spec: the external fixed-width hash decoder
(`Hash256::from_str`, supplied by an excluded crate).  It accepts exactly
64 hexadecimal characters; a wrong length or a stray character yields a
short diagnostic which, as in the external decoder, describes the defect
and does not echo the input text. -/
def hash256FromStr (s : String) : Except String Hash256 :=
  if s.data.length ≠ 64 then Except.error "Invalid input length"
  else if s.data.all isHexDigit then Except.ok ⟨hexBytes s.data⟩
  else Except.error "Invalid character"

/-- Decimal value of a digit string. -/
def digitsVal (l : List Char) : Nat :=
  l.foldl (fun a c => a * 10 + (c.toNat - 48)) 0

/-- Modelled from the spec: the numeric parse `u64::from_str` — the full
text read as an unsigned 64-bit integer, failing on empty text, a
non-digit character, or 64-bit overflow. -/
def u64FromStr (s : String) : Except String Nat :=
  if s.data ≠ [] ∧ s.data.all Char.isDigit = true ∧ digitsVal s.data < 2 ^ 64 then
    Except.ok (digitsVal s.data)
  else
    Except.error "invalid digit found in string"

/-- The block identifier sum type (source lines 25-32). -/
inductive BlockId where
  | Head
  | Genesis
  | Finalized
  | Justified
  | Slot (slot : Nat)
  | Root (root : Hash256)
  deriving DecidableEq

/-- Translation of `BlockId::from_str` (source lines 34-57), parameterised
over the external hash decoder. -/
def BlockId.from_str (hashFromStr : String → Except String Hash256)
    (s : String) : Except String BlockId :=
  if s = "head" then Except.ok BlockId.Head
  else if s = "genesis" then Except.ok BlockId.Genesis
  else if s = "finalized" then Except.ok BlockId.Finalized
  else if s = "justified" then Except.ok BlockId.Justified
  else if startsWith0x s then
    match hashFromStr (dropTwo s) with
    | Except.ok root => Except.ok (BlockId.Root root)
    | Except.error e => Except.error (e ++ " cannot be parsed as a root")
  else
    match u64FromStr s with
    | Except.ok n => Except.ok (BlockId.Slot n)
    | Except.error _ => Except.error (s ++ " cannot be parsed as a parameter")

/-- Translation of the `Display` instance of `BlockId` (source lines
59-70), parameterised over the external debug rendering of hashes. -/
def BlockId.render (hashDebug : Hash256 → String) : BlockId → String
  | BlockId.Head => "head"
  | BlockId.Genesis => "genesis"
  | BlockId.Finalized => "finalized"
  | BlockId.Justified => "justified"
  | BlockId.Slot slot => toString slot
  | BlockId.Root root => hashDebug root

/-- The state identifier sum type (source lines 73-80). -/
inductive StateId where
  | Head
  | Genesis
  | Finalized
  | Justified
  | Slot (slot : Nat)
  | Root (root : Hash256)
  deriving DecidableEq

/-- Translation of `StateId::from_str` (source lines 82-105), parameterised
over the external hash decoder. -/
def StateId.from_str (hashFromStr : String → Except String Hash256)
    (s : String) : Except String StateId :=
  if s = "head" then Except.ok StateId.Head
  else if s = "genesis" then Except.ok StateId.Genesis
  else if s = "finalized" then Except.ok StateId.Finalized
  else if s = "justified" then Except.ok StateId.Justified
  else if startsWith0x s then
    match hashFromStr (dropTwo s) with
    | Except.ok root => Except.ok (StateId.Root root)
    | Except.error e => Except.error (e ++ " cannot be parsed as a root")
  else
    match u64FromStr s with
    | Except.ok n => Except.ok (StateId.Slot n)
    | Except.error _ => Except.error (s ++ " cannot be parsed as a slot")

/-- Translation of the `Display` instance of `StateId` (source lines
107-118), parameterised over the external debug rendering of hashes. -/
def StateId.render (hashDebug : Hash256 → String) : StateId → String
  | StateId.Head => "head"
  | StateId.Genesis => "genesis"
  | StateId.Finalized => "finalized"
  | StateId.Justified => "justified"
  | StateId.Slot slot => toString slot
  | StateId.Root root => hashDebug root

/-- The validator identifier sum type (source lines 151-154). -/
inductive ValidatorId where
  | PublicKey (pubkey : PublicKeyBytes)
  | Index (index : Nat)
  deriving DecidableEq

/-- Translation of `ValidatorId::from_str` (source lines 159-169),
parameterised over the external public-key decoder.  Note that the source
passes the whole string `s` to the decoder, not the slice `&s[2..]`. -/
def ValidatorId.from_str (publicKeyFromStr : String → Except String PublicKeyBytes)
    (s : String) : Except String ValidatorId :=
  if startsWith0x s then
    match publicKeyFromStr s with
    | Except.ok pubkey => Except.ok (ValidatorId.PublicKey pubkey)
    | Except.error e => Except.error (s ++ " cannot be parsed as a public key: " ++ e)
  else
    match u64FromStr s with
    | Except.ok index => Except.ok (ValidatorId.Index index)
    | Except.error e => Except.error (s ++ " cannot be parsed as a slot: " ++ e)

/-- The evident variant correspondence between the two identifier
families. -/
def BlockId.toStateId : BlockId → StateId
  | BlockId.Head => StateId.Head
  | BlockId.Genesis => StateId.Genesis
  | BlockId.Finalized => StateId.Finalized
  | BlockId.Justified => StateId.Justified
  | BlockId.Slot slot => StateId.Slot slot
  | BlockId.Root root => StateId.Root root

deriving instance DecidableEq for Except

/-- A test public-key decoder used in witnesses: succeeds exactly on
0x-prefixed text (like the real decoder, which checks the two leading
characters itself). -/
def pkExpects0x : String → Except String PublicKeyBytes :=
  fun t =>
    if startsWith0x t then Except.ok ⟨hexBytes (dropTwo t).data⟩
    else Except.error "missing 0x"

/-- A test hash renderer used in witnesses. -/
def hashDebugTest : Hash256 → String :=
  fun _ => "0xdeadbeef"

/-- A string beginning with the two characters 0x is none of the four
symbolic tags. -/
theorem startsWith0x_ne_tags {s : String} (hs : startsWith0x s = true) :
    s ≠ "head" ∧ s ≠ "genesis" ∧ s ≠ "finalized" ∧ s ≠ "justified" := by
  refine ⟨?_, ?_, ?_, ?_⟩ <;> rintro rfl <;> exact absurd hs (by decide)

/-- On a string beginning with 0x, `BlockId::from_str` is the hash-decode
branch. -/
theorem blockId_from_str_0x (hd : String → Except String Hash256)
    {s : String} (hs : startsWith0x s = true) :
    BlockId.from_str hd s =
      (match hd (dropTwo s) with
       | Except.ok root => Except.ok (BlockId.Root root)
       | Except.error e => Except.error (e ++ " cannot be parsed as a root")) := by
  obtain ⟨h1, h2, h3, h4⟩ := startsWith0x_ne_tags hs
  simp [BlockId.from_str, h1, h2, h3, h4, hs]

/-- On a string beginning with 0x, `StateId::from_str` is the hash-decode
branch. -/
theorem stateId_from_str_0x (hd : String → Except String Hash256)
    {s : String} (hs : startsWith0x s = true) :
    StateId.from_str hd s =
      (match hd (dropTwo s) with
       | Except.ok root => Except.ok (StateId.Root root)
       | Except.error e => Except.error (e ++ " cannot be parsed as a root")) := by
  obtain ⟨h1, h2, h3, h4⟩ := startsWith0x_ne_tags hs
  simp [StateId.from_str, h1, h2, h3, h4, hs]

/-- On a string beginning with 0x, `ValidatorId::from_str` is the
public-key-decode branch, applied to the whole input text. -/
theorem validatorId_from_str_0x (pd : String → Except String PublicKeyBytes)
    {s : String} (hs : startsWith0x s = true) :
    ValidatorId.from_str pd s =
      (match pd s with
       | Except.ok pubkey => Except.ok (ValidatorId.PublicKey pubkey)
       | Except.error e =>
         Except.error (s ++ " cannot be parsed as a public key: " ++ e)) := by
  simp [ValidatorId.from_str, hs]

/-- Claim C6: for each of the four symbolic variants of `BlockId` and of
`StateId`, parsing the rendered text yields the original variant back, for
every choice of the external hash decoder and hash renderer. -/
theorem symbolic_roundtrip
    (hd : String → Except String Hash256) (hr : Hash256 → String) :
    BlockId.from_str hd (BlockId.render hr BlockId.Head)
        = Except.ok BlockId.Head ∧
      BlockId.from_str hd (BlockId.render hr BlockId.Genesis)
        = Except.ok BlockId.Genesis ∧
      BlockId.from_str hd (BlockId.render hr BlockId.Finalized)
        = Except.ok BlockId.Finalized ∧
      BlockId.from_str hd (BlockId.render hr BlockId.Justified)
        = Except.ok BlockId.Justified ∧
      StateId.from_str hd (StateId.render hr StateId.Head)
        = Except.ok StateId.Head ∧
      StateId.from_str hd (StateId.render hr StateId.Genesis)
        = Except.ok StateId.Genesis ∧
      StateId.from_str hd (StateId.render hr StateId.Finalized)
        = Except.ok StateId.Finalized ∧
      StateId.from_str hd (StateId.render hr StateId.Justified)
        = Except.ok StateId.Justified := by
  refine ⟨?_, ?_, ?_, ?_, ?_, ?_, ?_, ?_⟩ <;> rfl

/-- Claim C7: an input beginning with the two characters 0x never takes the
numeric branch of any of the three parsers, whatever the decoders do: the
text is handed to the hash or public-key decoder and the outcome is a root
or public-key variant or the corresponding decode error — even when every
character after the two-character 0x is a decimal digit. -/
theorem hex_never_numeric
    (hd : String → Except String Hash256)
    (pd : String → Except String PublicKeyBytes)
    (s : String) (hs : startsWith0x s = true) :
    ((∃ r, BlockId.from_str hd s = Except.ok (BlockId.Root r)) ∨
       (∃ e, BlockId.from_str hd s
          = Except.error (e ++ " cannot be parsed as a root"))) ∧
    (∀ n, BlockId.from_str hd s ≠ Except.ok (BlockId.Slot n)) ∧
    ((∃ r, StateId.from_str hd s = Except.ok (StateId.Root r)) ∨
       (∃ e, StateId.from_str hd s
          = Except.error (e ++ " cannot be parsed as a root"))) ∧
    (∀ n, StateId.from_str hd s ≠ Except.ok (StateId.Slot n)) ∧
    ((∃ p, ValidatorId.from_str pd s = Except.ok (ValidatorId.PublicKey p)) ∨
       (∃ e, ValidatorId.from_str pd s
          = Except.error (s ++ " cannot be parsed as a public key: " ++ e))) ∧
    (∀ n, ValidatorId.from_str pd s ≠ Except.ok (ValidatorId.Index n)) := by
  refine ⟨?_, ?_, ?_, ?_, ?_, ?_⟩
  · cases h : hd (dropTwo s) with
    | error e => exact Or.inr ⟨e, by rw [blockId_from_str_0x hd hs, h]⟩
    | ok r => exact Or.inl ⟨r, by rw [blockId_from_str_0x hd hs, h]⟩
  · intro n
    rw [blockId_from_str_0x hd hs]
    cases h : hd (dropTwo s) <;> simp
  · cases h : hd (dropTwo s) with
    | error e => exact Or.inr ⟨e, by rw [stateId_from_str_0x hd hs, h]⟩
    | ok r => exact Or.inl ⟨r, by rw [stateId_from_str_0x hd hs, h]⟩
  · intro n
    rw [stateId_from_str_0x hd hs]
    cases h : hd (dropTwo s) <;> simp
  · cases h : pd s with
    | error e => exact Or.inr ⟨e, by rw [validatorId_from_str_0x pd hs, h]⟩
    | ok p => exact Or.inl ⟨p, by rw [validatorId_from_str_0x pd hs, h]⟩
  · intro n
    rw [validatorId_from_str_0x pd hs]
    cases h : pd s <;> simp

/-- Witness for C7 at the concrete digit-suffixed input 0x123. -/
theorem hex_never_numeric_witness :
    startsWith0x "0x123" = true ∧
      BlockId.from_str hash256FromStr "0x123" ≠ Except.ok (BlockId.Slot 123) ∧
      StateId.from_str hash256FromStr "0x123" ≠ Except.ok (StateId.Slot 123) ∧
      ValidatorId.from_str pkExpects0x "0x123" ≠ Except.ok (ValidatorId.Index 123) :=
  ⟨by decide,
    (hex_never_numeric hash256FromStr pkExpects0x "0x123" (by decide)).2.1 123,
    (hex_never_numeric hash256FromStr pkExpects0x "0x123" (by decide)).2.2.2.1 123,
    (hex_never_numeric hash256FromStr pkExpects0x "0x123" (by decide)).2.2.2.2.2 123⟩

/-- Claim C8 counterexample: at the concrete input 0xzz the hash decode
fails and the resulting BlockId and StateId error message carries the
category phrase and the decode error, but does not name the offending
input text, contrary to the claim. -/
theorem root_error_drops_input :
    BlockId.from_str hash256FromStr "0xzz"
        = Except.error "Invalid input length cannot be parsed as a root" ∧
      StateId.from_str hash256FromStr "0xzz"
        = Except.error "Invalid input length cannot be parsed as a root" ∧
      ¬ ("0xzz".data <:+: "Invalid input length cannot be parsed as a root".data) :=
  ⟨by decide, by decide, by decide⟩

/-- Claim C8 amended: for every 0x-prefixed input on which the hash decoder
fails, BlockId and StateId parsing return an error whose message is the
underlying decode error followed by the category phrase: the message
contains the phrase and the decode error, but it is built from the decode
error alone and does not, in general, name the offending input text. -/
theorem root_error_message (hd : String → Except String Hash256)
    (s e : String) (hs : startsWith0x s = true)
    (hf : hd (dropTwo s) = Except.error e) :
    BlockId.from_str hd s
        = Except.error (e ++ " cannot be parsed as a root") ∧
      StateId.from_str hd s
        = Except.error (e ++ " cannot be parsed as a root") ∧
      e.data <:+: (e ++ " cannot be parsed as a root").data ∧
      "cannot be parsed as a root".data
        <:+: (e ++ " cannot be parsed as a root").data := by
  refine ⟨?_, ?_, ?_, ?_⟩
  · rw [blockId_from_str_0x hd hs, hf]
  · rw [stateId_from_str_0x hd hs, hf]
  · rw [String.data_append]
    exact ⟨[], " cannot be parsed as a root".data, by simp⟩
  · rw [String.data_append]
    refine ⟨e.data ++ [' '], [], ?_⟩
    have hsp : (" cannot be parsed as a root").data
        = ' ' :: ("cannot be parsed as a root").data := rfl
    rw [hsp]
    simp

/-- Witness for the amended C8 at the concrete input 0xzz. -/
theorem root_error_message_witness :
    startsWith0x "0xzz" = true ∧
      hash256FromStr (dropTwo "0xzz") = Except.error "Invalid input length" ∧
      BlockId.from_str hash256FromStr "0xzz"
        = Except.error ("Invalid input length" ++ " cannot be parsed as a root") :=
  ⟨by decide, by decide,
    (root_error_message hash256FromStr "0xzz" "Invalid input length"
      (by decide) (by decide)).1⟩

/-- Claim C9 counterexample: under a public-key decoder that accepts only
0x-prefixed text, `ValidatorId::from_str` succeeds on 0x12 while the
decoder rejects the stripped remainder 12 — so the parser hands the
decoder the full text and does not strip the two-character 0x, and the
claimed strip-then-decode description is false at this input. -/
theorem validator_id_strip_cex :
    ValidatorId.from_str pkExpects0x "0x12"
        = Except.ok (ValidatorId.PublicKey ⟨[18]⟩) ∧
      pkExpects0x (dropTwo "0x12") = Except.error "missing 0x" ∧
      ValidatorId.from_str pkExpects0x "0x12" ≠
        (match pkExpects0x (dropTwo "0x12") with
         | Except.ok p => Except.ok (ValidatorId.PublicKey p)
         | Except.error e =>
           Except.error ("0x12" ++ " cannot be parsed as a public key: " ++ e)) :=
  ⟨by decide, by decide, by decide⟩

/-- Claim C9 amended: for every 0x-prefixed input, `ValidatorId::from_str`
passes the full text, including the two-character 0x, to the public-key
decoder — it does not strip the 0x — whereas `BlockId::from_str` strips
the 0x before handing the remainder to the hash decoder. -/
theorem validator_id_decodes_full_text
    (pd : String → Except String PublicKeyBytes)
    (hd : String → Except String Hash256)
    (s : String) (hs : startsWith0x s = true) :
    ValidatorId.from_str pd s =
      (match pd s with
       | Except.ok p => Except.ok (ValidatorId.PublicKey p)
       | Except.error e =>
         Except.error (s ++ " cannot be parsed as a public key: " ++ e)) ∧
    BlockId.from_str hd s =
      (match hd (dropTwo s) with
       | Except.ok root => Except.ok (BlockId.Root root)
       | Except.error e => Except.error (e ++ " cannot be parsed as a root")) :=
  ⟨validatorId_from_str_0x pd hs, blockId_from_str_0x hd hs⟩

/-- Witness for the amended C9 at the concrete input 0x12. -/
theorem validator_id_decodes_full_text_witness :
    startsWith0x "0x12" = true ∧
      ValidatorId.from_str pkExpects0x "0x12"
        = Except.ok (ValidatorId.PublicKey ⟨[18]⟩) :=
  ⟨by decide,
    ((validator_id_decodes_full_text pkExpects0x hash256FromStr "0x12"
      (by decide)).1).trans (by decide)⟩

/-- The variant correspondence is injective. -/
theorem toStateId_inj {a b : BlockId}
    (h : BlockId.toStateId a = BlockId.toStateId b) : a = b := by
  cases a <;> cases b <;> simp_all [BlockId.toStateId]

/-- The two parsers case-analysed together: on every input they either
both succeed on corresponding variants, both fail with the same root
decode error, or both fail with their respective numeric-parse wordings. -/
theorem block_state_from_str_cases
    (hd : String → Except String Hash256) (s : String) :
    (∃ b, BlockId.from_str hd s = Except.ok b ∧
       StateId.from_str hd s = Except.ok (BlockId.toStateId b)) ∨
    (∃ e, startsWith0x s = true ∧
       BlockId.from_str hd s = Except.error (e ++ " cannot be parsed as a root") ∧
       StateId.from_str hd s = Except.error (e ++ " cannot be parsed as a root")) ∨
    (startsWith0x s = false ∧
       BlockId.from_str hd s = Except.error (s ++ " cannot be parsed as a parameter") ∧
       StateId.from_str hd s = Except.error (s ++ " cannot be parsed as a slot")) := by
  by_cases h1 : s = "head"
  · exact Or.inl ⟨BlockId.Head, by rw [h1]; rfl, by rw [h1]; rfl⟩
  by_cases h2 : s = "genesis"
  · exact Or.inl ⟨BlockId.Genesis, by rw [h2]; rfl, by rw [h2]; rfl⟩
  by_cases h3 : s = "finalized"
  · exact Or.inl ⟨BlockId.Finalized, by rw [h3]; rfl, by rw [h3]; rfl⟩
  by_cases h4 : s = "justified"
  · exact Or.inl ⟨BlockId.Justified, by rw [h4]; rfl, by rw [h4]; rfl⟩
  by_cases hx : startsWith0x s = true
  · cases h : hd (dropTwo s) with
    | ok r =>
      exact Or.inl ⟨BlockId.Root r,
        by rw [blockId_from_str_0x hd hx, h],
        by rw [stateId_from_str_0x hd hx, h]; rfl⟩
    | error e =>
      exact Or.inr (Or.inl ⟨e, hx,
        by rw [blockId_from_str_0x hd hx, h],
        by rw [stateId_from_str_0x hd hx, h]⟩)
  · have hx' : startsWith0x s = false := by simpa using hx
    cases h : u64FromStr s with
    | ok n =>
      exact Or.inl ⟨BlockId.Slot n,
        by simp [BlockId.from_str, h1, h2, h3, h4, hx', h],
        by simp [StateId.from_str, BlockId.toStateId, h1, h2, h3, h4, hx', h]⟩
    | error e =>
      exact Or.inr (Or.inr ⟨hx',
        by simp [BlockId.from_str, h1, h2, h3, h4, hx', h],
        by simp [StateId.from_str, h1, h2, h3, h4, hx', h]⟩)

/-- Claim C10: BlockId and StateId parsing succeed on exactly the same
inputs and then yield corresponding variants under the evident bijection;
root decode errors coincide, the only difference between the two families
is the wording of the numeric-parse error, and corresponding variants
render to identical strings. -/
theorem block_state_id_equivalent
    (hd : String → Except String Hash256) (hr : Hash256 → String) (s : String) :
    (∀ b, BlockId.from_str hd s = Except.ok b ↔
        StateId.from_str hd s = Except.ok (BlockId.toStateId b)) ∧
    (BlockId.from_str hd s).isOk = (StateId.from_str hd s).isOk ∧
    (∀ e, startsWith0x s = true →
        (BlockId.from_str hd s = Except.error e ↔
          StateId.from_str hd s = Except.error e)) ∧
    (∀ e, startsWith0x s = false → BlockId.from_str hd s = Except.error e →
        e = s ++ " cannot be parsed as a parameter" ∧
        StateId.from_str hd s
          = Except.error (s ++ " cannot be parsed as a slot")) ∧
    (∀ b, BlockId.render hr b = StateId.render hr (BlockId.toStateId b)) := by
  rcases block_state_from_str_cases hd s with
    ⟨b0, hb, hst⟩ | ⟨e0, hx, hb, hst⟩ | ⟨hx, hb, hst⟩
  · refine ⟨?_, ?_, ?_, ?_, ?_⟩
    · intro b
      rw [hb, hst]
      simp only [Except.ok.injEq]
      exact ⟨fun h => by rw [h], fun h => toStateId_inj h⟩
    · rw [hb, hst]
      rfl
    · intro e _
      rw [hb, hst]
      simp
    · intro e _ hcontra
      rw [hb] at hcontra
      simp at hcontra
    · intro b
      cases b <;> rfl
  · refine ⟨?_, ?_, ?_, ?_, ?_⟩
    · intro b
      rw [hb, hst]
      simp
    · rw [hb, hst]
      rfl
    · intro e _
      rw [hb, hst]
      constructor <;> intro h <;> (injection h with h2; rw [h2])
    · intro e hx0
      rw [hx] at hx0
      exact Bool.noConfusion hx0
    · intro b
      cases b <;> rfl
  · refine ⟨?_, ?_, ?_, ?_, ?_⟩
    · intro b
      rw [hb, hst]
      simp
    · rw [hb, hst]
      rfl
    · intro e hx0
      rw [hx0] at hx
      exact Bool.noConfusion hx
    · intro e _ hcontra
      rw [hb] at hcontra
      injection hcontra with h
      exact ⟨h.symm, hst⟩
    · intro b
      cases b <;> rfl

/-- Witness for C10 at the concrete numeric input 5. -/
theorem block_state_id_equivalent_witness :
    BlockId.from_str hash256FromStr "5" = Except.ok (BlockId.Slot 5) ∧
      StateId.from_str hash256FromStr "5"
        = Except.ok (BlockId.toStateId (BlockId.Slot 5)) ∧
      BlockId.render hashDebugTest (BlockId.Slot 5)
        = StateId.render hashDebugTest (BlockId.toStateId (BlockId.Slot 5)) :=
  ⟨by decide,
    ((block_state_id_equivalent hash256FromStr hashDebugTest "5").1
      (BlockId.Slot 5)).mp (by decide),
    (block_state_id_equivalent hash256FromStr hashDebugTest "5").2.2.2.2
      (BlockId.Slot 5)⟩

end Eth2
